import Mathlib

/-!
Verification of the azul Windows desktop shell excerpt.

Shallow embedding of two source files:

* `src/api/patches/azul.rs/option.rs` — the optional-value ABI bridge
  (`impl_option_inner!` / `impl_option!` macros).  The macros generate, for
  each concrete payload type, a two-variant enum with `None`/`Some`
  constructors together with `default`, `as_option`, `as_mut_option`,
  `is_some`, `is_none` and (for the copy / clone variants) `into_option`
  and the `From` conversions.  The family is modelled once, generically in
  the payload type `T`; `clone()` and `*t` (copy) on a value are both the
  identity in the pure model.

* `src/azul-desktop/src/shell/win32.rs` — the Win32 shell: `run`,
  `Window::create`/`show`, `GlFunctions::initialize`/`load` (with the inner
  `get_func`), `DwmFunctions::initialize`, the error enums and the message
  dispatch loop.  All Win32 / OS effects (`GetModuleHandleW`,
  `CreateWindowExW`, `wglGetProcAddress`, `GetProcAddress`, `GetDC`,
  `GetMessageW`, ...) and the outcomes of the `RefCell` dynamic borrows
  (`try_borrow` / `try_borrow_mut`) are supplied by an environment record
  `RunEnv`; addresses and handles are natural numbers with `0` as the null
  pointer.  The dispatch loop, which need not terminate, takes explicit
  fuel.  `run` additionally returns a `RunTrace` recording the externally
  observable steps (class registration, creation attempts, intermediate
  window maps, shown windows, GL loading, dispatched message count) so that
  the specification's observation points can be stated.
-/

namespace Azul

/-! ## Optional-value ABI bridge (`option.rs`) -/

/-- Two-variant wrapper generated by `impl_option!` for a payload type.
The Rust macro stamps out one concrete enum per payload type
(`AzOptionI32`, `AzOptionString`, ...); the model is generic in `T`. -/
inductive AzOption (T : Type) where
  | None : AzOption T
  | Some : T → AzOption T

/-- Model of `impl Default`: `fn default() -> Self \x7b Self::None \x7d`. -/
def AzOption.default {T : Type} : AzOption T := AzOption.None

/-- Model of `as_option(&self) -> Option<&T>` (the borrow is dropped in the
pure model, the referenced value is returned). -/
def AzOption.as_option {T : Type} : AzOption T → Option T
  | AzOption.None => Option.none
  | AzOption.Some t => Option.some t

/-- Model of `as_mut_option(&mut self) -> Option<&mut T>`. -/
def AzOption.as_mut_option {T : Type} : AzOption T → Option T
  | AzOption.None => Option.none
  | AzOption.Some t => Option.some t

/-- Model of `is_some(&self) -> bool`. -/
def AzOption.is_some {T : Type} : AzOption T → Bool
  | AzOption.None => false
  | AzOption.Some _ => true

/-- Model of `is_none(&self) -> bool \x7b !self.is_some() \x7d`. -/
def AzOption.is_none {T : Type} (v : AzOption T) : Bool := !v.is_some

/-- Move-only variant (`copy = false, clone = false`):
`From<Option<T>>`, written in the source as
`if o.is_none() then None else Some(o.take().unwrap())`. -/
def AzOption.from_option_move {T : Type} (o : Option T) : AzOption T :=
  if o.isNone then AzOption.None
  else
    match o with
    | Option.none => AzOption.None
    | Option.some t => AzOption.Some t

/-- Clone variant (`copy = false`): `into_option(&self) -> Option<T>`,
returning `Some(t.clone())`; `clone` is the identity on model values. -/
def AzOption.into_option_clone {T : Type} : AzOption T → Option T
  | AzOption.None => Option.none
  | AzOption.Some t => Option.some t

/-- Clone variant: `From<Self> for Option<T>` (`Some(t.clone())`). -/
def AzOption.to_option_clone {T : Type} : AzOption T → Option T
  | AzOption.None => Option.none
  | AzOption.Some t => Option.some t

/-- Clone variant: `From<Option<T>> for Self` (`Some(t.clone())`). -/
def AzOption.from_option_clone {T : Type} : Option T → AzOption T
  | Option.none => AzOption.None
  | Option.some t => AzOption.Some t

/-- Copy variant (third macro arm): `into_option` returning `Some(*t)`. -/
def AzOption.into_option_copy {T : Type} : AzOption T → Option T
  | AzOption.None => Option.none
  | AzOption.Some t => Option.some t

/-- Copy variant: `From<Self> for Option<T>` (`Some(*t)`). -/
def AzOption.to_option_copy {T : Type} : AzOption T → Option T
  | AzOption.None => Option.none
  | AzOption.Some t => Option.some t

/-- Copy variant: `From<Option<T>> for Self` (`Some(*t)`). -/
def AzOption.from_option_copy {T : Type} : Option T → AzOption T
  | Option.none => AzOption.None
  | Option.some t => AzOption.Some t

/-! ## OpenGL function loading (`GlFunctions`, win32.rs lines 325-375) -/

/-- Model of `gl_context_loader::GenericGlContext`: a flat struct of several
hundred named function-pointer fields, every field of the form
`glXyz: get_func("glXyz", dll)`.  The model indexes the fields by their
symbol name; an address of `0` is the null pointer. -/
structure GenericGlContext where
  getProc : String → Nat

/-- Model of the `GlFunctions` struct: the optionally loaded
`opengl32.dll` handle and the shared function table. -/
structure GlFunctions where
  _opengl32_dll_handle : Option Nat
  functions : GenericGlContext

/-- Model of `GlFunctions::initialize`: `LoadLibraryW("opengl32.dll")`
(its result is supplied as `loadLibraryResult`, `none` meaning a null
handle) and a `mem::zeroed()` — i.e. all-null — function table. -/
def GlFunctions.init (loadLibraryResult : Option Nat) : GlFunctions :=
  { _opengl32_dll_handle := loadLibraryResult,
    functions := { getProc := fun _ => 0 } }

/-- Model of the inner `get_func` of `GlFunctions::load`.
`wgl` is `wglGetProcAddress` (the current context's resolver) and `gpa`
is `GetProcAddress` applied to a module handle; both return `0` for null.
Mirrors: `let addr1 = wglGetProcAddress(name); if addr1 != null \x7b addr1 \x7d
else if let Some(dll) = opengl32_dll \x7b GetProcAddress(dll, name) \x7d else
\x7b addr1 \x7d`. -/
def get_func (wgl : String → Nat) (gpa : Nat → String → Nat)
    (s : String) (opengl32_dll : Option Nat) : Nat :=
  let addr1 := wgl s
  if addr1 ≠ 0 then addr1
  else
    match opengl32_dll with
    | Option.some dll => gpa dll s
    | Option.none => addr1

/-- Model of `GlFunctions::load`: rebuild `functions` with every named
field set to `get_func(name, self._opengl32_dll_handle)`. -/
def GlFunctions.load (g : GlFunctions) (wgl : String → Nat)
    (gpa : Nat → String → Nat) : GlFunctions :=
  { g with
    functions := { getProc := fun s => get_func wgl gpa s g._opengl32_dll_handle } }

/-! ## DwmFunctions (win32.rs lines 266-316) -/

/-- Model of the `DwmFunctions` struct: the `dwmapi.dll` handle and three
optionally resolved entry points (the resolved address is kept). -/
structure DwmFunctions where
  _dwmapi_dll_handle : Nat
  DwmEnableBlurBehindWindow : Option Nat
  DwmExtendFrameIntoClientArea : Option Nat
  DwmDefWindowProc : Option Nat
  deriving DecidableEq

/-- Model of `DwmFunctions::initialize`: `LoadLibraryW("dwmapi.dll")`
(result supplied as `loadLib`); a null handle yields `None`, otherwise
each of the three symbols is looked up with `GetProcAddress` (`gpa`),
null results stored as `None`. -/
def DwmFunctions.init (loadLib : Option Nat) (gpa : Nat → String → Nat) :
    Option DwmFunctions :=
  match loadLib with
  | Option.none => Option.none
  | Option.some h =>
    let a1 := gpa h "DwmEnableBlurBehindWindow"
    let a2 := gpa h "DwmExtendFrameIntoClientArea"
    let a3 := gpa h "DwmDefWindowProc"
    Option.some
      { _dwmapi_dll_handle := h,
        DwmEnableBlurBehindWindow := if a1 ≠ 0 then Option.some a1 else Option.none,
        DwmExtendFrameIntoClientArea := if a2 ≠ 0 then Option.some a2 else Option.none,
        DwmDefWindowProc := if a3 ≠ 0 then Option.some a3 else Option.none }

/-! ## Error enums (win32.rs lines 212-245) -/

/-- Model of `core::cell::BorrowError` (no observable payload). -/
inductive BorrowError : Type where
  | mk : BorrowError
  deriving DecidableEq

/-- Model of `core::cell::BorrowMutError` (no observable payload). -/
inductive BorrowMutError : Type where
  | mk : BorrowMutError
  deriving DecidableEq

/-- Model of `WindowsWindowCreateError` (u32 error codes as `Nat`). -/
inductive WindowsWindowCreateError : Type where
  | FailedToCreateHWND : Nat → WindowsWindowCreateError
  deriving DecidableEq

/-- Model of `WindowsOpenGlError` (u32 error codes as `Nat`). -/
inductive WindowsOpenGlError : Type where
  | OpenGL32DllNotFound : Nat → WindowsOpenGlError
  | FailedToGetDC : Nat → WindowsOpenGlError
  | FailedToGetPixelFormat : Nat → WindowsOpenGlError
  | NoMatchingPixelFormat : Nat → WindowsOpenGlError
  | OpenGLNotAvailable : Nat → WindowsOpenGlError
  | FailedToStoreContext : Nat → WindowsOpenGlError
  deriving DecidableEq

/-- Model of `WindowsStartupError`; the `From` conversions used by the
`?` operator map `BorrowError` to the `Borrow` variant, `BorrowMutError`
to `BorrowMut`, and likewise for the create / GL errors. -/
inductive WindowsStartupError : Type where
  | NoAppInstance : Nat → WindowsStartupError
  | WindowCreationFailed : WindowsStartupError
  | Borrow : BorrowError → WindowsStartupError
  | BorrowMut : BorrowMutError → WindowsStartupError
  | Create : WindowsWindowCreateError → WindowsStartupError
  | Gl : WindowsOpenGlError → WindowsStartupError
  deriving DecidableEq

/-! ## Window data model (win32.rs lines 1169-1290) -/

/-- Opaque collaborator: toolkit-internal UI state (`WindowInternal`). -/
structure WindowInternal where

/-- Opaque collaborator: the WebRender render API handle. -/
structure WrRenderApi where

/-- Opaque collaborator: the WebRender renderer instance. -/
structure WrRenderer where

/-- Opaque collaborator: the WebRender hit-tester. -/
structure WrApiHitTester where

/-- Windows-specific window options (`parent_window` is the part of the
configuration the excerpt actually reads; an `Option Nat` models the
`AzOptionHwndHandle`). -/
structure WindowsOptions where
  parent_window : Option Nat

/-- Platform-specific window options. -/
structure PlatformSpecificOptions where
  windows_options : WindowsOptions

/-- Window-state snapshot: the excerpt reads `title` and the
platform-specific options. -/
structure WindowState where
  title : String
  platform_specific_options : PlatformSpecificOptions

/-- Window configuration passed to `Window::create`. -/
structure WindowCreateOptions where
  state : WindowState

/-- Model of the `Window` struct (win32.rs lines 1169-1184). -/
structure Window where
  hwnd : Nat
  state : WindowState
  internal : WindowInternal
  gl_context : Option Nat
  render_api : WrRenderApi
  renderer : Option WrRenderer
  hit_tester : WrApiHitTester

/-- Model of `Window::get_id`: the `HWND` cast to `usize`. -/
def Window.get_id (w : Window) : Nat := w.hwnd

/-- Model of `Window::create`.  `CreateWindowExW`'s result is supplied by
the environment as `hwndResult` (`none` meaning a null handle), and
`lastError` is the value `GetLastError` would report.  On a null handle
the function fails with `FailedToCreateHWND(GetLastError())`; otherwise it
returns the `Window` literal from the source: `gl_context: None`
("initialized later"), `renderer: Some(renderer)`.  The source's
construction of `internal`, `render_api`, `renderer` and `hit_tester` is
left incomplete (commented out) and those collaborator values are opaque
here. -/
def Window.create (hwndResult : Option Nat) (lastError : Nat)
    (_hinstance : Nat) (options : WindowCreateOptions) :
    Except WindowsWindowCreateError Window :=
  let _parent_window : Option Nat :=
    options.state.platform_specific_options.windows_options.parent_window
  match hwndResult with
  | Option.none =>
    Except.error (WindowsWindowCreateError.FailedToCreateHWND lastError)
  | Option.some hwnd =>
    Except.ok
      { hwnd := hwnd,
        state := options.state,
        internal := WindowInternal.mk,
        gl_context := Option.none,
        render_api := WrRenderApi.mk,
        renderer := Option.some WrRenderer.mk,
        hit_tester := WrApiHitTester.mk }

/-! ## The window map (`BTreeMap<usize, Window>`) -/

/-- The runtime's window map, `BTreeMap<usize, Window>`, modelled as an
association list sorted strictly by key. -/
abbrev WindowMap := List (Nat × Window)

/-- `BTreeMap::insert`: ordered insertion, replacing an equal key. -/
def insertMap (k : Nat) (v : Window) : WindowMap → WindowMap
  | [] => [(k, v)]
  | (k', v') :: rest =>
    if k < k' then (k, v) :: (k', v') :: rest
    else if k = k' then (k, v) :: rest
    else (k', v') :: insertMap k v rest

/-- Keys of the window map, in iteration order. -/
def mapKeys (m : WindowMap) : List Nat := m.map Prod.fst

/-- Values of the window map, in iteration order (`values()`). -/
def mapValues (m : WindowMap) : List Window := m.map Prod.snd

/-! ## Environment: OS effects and borrow outcomes -/

/-- Environment of `run`: the results of every external call and of every
dynamic borrow of the shared `Rc<RefCell<ApplicationData>>`.  Addresses
and handles are `Nat` with `0` meaning null; an `Option Nat` result models
a call whose null result is checked by the source.  Borrow sites are keyed
the way the source reaches them: one `try_borrow_mut` per successful
window creation (indexed by creation attempt), one `try_borrow` for the
context election, one `try_borrow` guarding `gl.load()`, one
`try_borrow_mut` for showing the windows, and one `try_borrow` per
dispatch-loop iteration. -/
structure RunEnv where
  moduleHandle : Option Nat
  lastError : Nat
  dwmDll : Option Nat
  dwmGetProc : Nat → String → Nat
  opengl32Dll : Option Nat
  createHwnd : Nat → Option Nat
  borrowMutInsert : Nat → Bool
  borrowElection : Bool
  getDC : Nat → Option Nat
  borrowGlLoad : Bool
  wglGetProc : String → Nat
  glGetProc : Nat → String → Nat
  borrowMutShow : Bool
  borrowLoopSnap : Nat → Bool
  getMsg : Nat → Nat → Int × Nat

/-- Opaque collaborator: `RefAny`, the application payload. -/
structure RefAny where

/-- Opaque collaborator: `AppConfig`. -/
structure AppConfig where

/-- Opaque collaborator: `ImageCache`. -/
structure ImageCache where

/-- Opaque collaborator: `LazyFcCache`. -/
structure LazyFcCache where

/-- Model of the `App` struct destructured by `run`. -/
structure App where
  data : RefAny
  config : AppConfig
  windows : List WindowCreateOptions
  image_cache : ImageCache
  fc_cache : LazyFcCache

/-! ## Startup phase: window creation and insertion (win32.rs 110-118) -/

/-- One creation attempt: `if let Ok(w) = Window::create(hinstance, opts, data)
\x7b app_data_inner.try_borrow_mut()?.windows.insert(w.get_id(), w); \x7d`.
A creation failure is skipped (the map is unchanged); a successful
creation performs a `try_borrow_mut` whose failure aborts with the
`BorrowMut` startup error via the `?` operator. -/
def startupStep (env : RunEnv) (hinstance : Nat) (idx : Nat)
    (opts : WindowCreateOptions) (m : WindowMap) :
    Except WindowsStartupError WindowMap :=
  match Window.create (env.createHwnd idx) env.lastError hinstance opts with
  | Except.error _ => Except.ok m
  | Except.ok w =>
    if env.borrowMutInsert idx then Except.ok (insertMap w.get_id w m)
    else Except.error (WindowsStartupError.BorrowMut BorrowMutError.mk)

/-- Result of the startup phase: the window map (or the propagated error),
the list of creation attempts in order, and every intermediate window map
(one observation point per successful insertion). -/
structure StartupOut where
  result : Except WindowsStartupError WindowMap
  attempts : List WindowCreateOptions
  states : List WindowMap

/-- The `for opts in windows` loop of `run`, attempt index threaded
through. -/
def startupLoop (env : RunEnv) (hinstance : Nat) :
    Nat → List WindowCreateOptions → WindowMap → StartupOut
  | _idx, [], m => { result := Except.ok m, attempts := [], states := [] }
  | idx, o :: rest, m =>
    match startupStep env hinstance idx o m with
    | Except.error e => { result := Except.error e, attempts := [o], states := [] }
    | Except.ok m' =>
      let out := startupLoop env hinstance (idx + 1) rest m'
      { result := out.result, attempts := o :: out.attempts,
        states := m' :: out.states }

/-- The whole startup phase of `run`: the loop over the pre-declared
window configurations followed by the root-window attempt (same body,
next attempt index). -/
def startup (env : RunEnv) (hinstance : Nat)
    (windows : List WindowCreateOptions) (root_window : WindowCreateOptions) :
    StartupOut :=
  let out := startupLoop env hinstance 0 windows []
  match out.result with
  | Except.error _ => out
  | Except.ok m =>
    match startupStep env hinstance windows.length root_window m with
    | Except.error e =>
      { result := Except.error e,
        attempts := out.attempts ++ [root_window], states := out.states }
    | Except.ok m' =>
      { result := Except.ok m',
        attempts := out.attempts ++ [root_window], states := out.states ++ [m'] }

/-! ## Context election and GL loading (win32.rs 120-139) -/

/-- Model of the election (win32.rs 121-124): find the first window in map
iteration order whose `gl_context` is `Some`, and return `(hwnd, hrc)`
(the `unwrap` cannot fail on the found window). -/
def electRootContext (m : WindowMap) : Option (Nat × Nat) :=
  match (mapValues m).find? (fun w => w.gl_context.isSome) with
  | Option.some w =>
    match w.gl_context with
    | Option.some hrc => Option.some (w.hwnd, hrc)
    | Option.none => Option.none
  | Option.none => Option.none

/-- Model of the GL loading block (win32.rs 131-139): when a context was
elected, `GetDC`; on a non-null DC, make the context current and — if the
`try_borrow` guarding it succeeds — run `gl.load()`.  Returns the
(possibly reloaded) `GlFunctions` and whether `load` ran.  A failure at
any point silently skips loading; there is no error path. -/
def glLoadStep (env : RunEnv) (gl : GlFunctions)
    (root_context : Option (Nat × Nat)) : GlFunctions × Bool :=
  match root_context with
  | Option.none => (gl, false)
  | Option.some (hwnd, _hrc) =>
    match env.getDC hwnd with
    | Option.none => (gl, false)
    | Option.some _hdc =>
      if env.borrowGlLoad then (gl.load env.wglGetProc env.glGetProc, true)
      else (gl, false)

/-! ## The message dispatch loop (win32.rs 149-188) -/

/-- One sweep over the snapshot of window handles (win32.rs 166-172): for
every handle, `GetMessageW` (status and the new `msg.wParam` supplied by
`getMsg` per handle slot), `TranslateMessage`, `DispatchMessageW`.
Returns the collected status codes (`results`) and the final `msg.wParam`. -/
def sweep (getMsg : Nat → Int × Nat) :
    List Nat → Nat → Nat → List Int × Nat
  | [], _j, wParam => ([], wParam)
  | _hwnd :: rest, j, _wParam =>
    let r := getMsg j
    let out := sweep getMsg rest (j + 1) r.2
    (r.1 :: out.1, out.2)

/-- Outcome of one iteration of the dispatch loop: either `break 'main`
(`exit`) or fall through to the next iteration (`next`).  Both carry the
current `msg.wParam` and the number of messages dispatched during this
iteration. -/
inductive IterOutcome : Type where
  | exit : Nat → Nat → IterOutcome
  | next : Nat → Nat → IterOutcome
  deriving DecidableEq

/-- One iteration of the `'main` loop (win32.rs 153-186).  `snap` is the
per-iteration snapshot of window handles (`none` when the `try_borrow`
failed, which breaks the loop before any handle is polled).  Otherwise
the sweep runs, then `break` if any collected status is not strictly
positive, then `break` if `results` or the handle snapshot is empty. -/
def loopIter (snap : Option (List Nat)) (getMsg : Nat → Int × Nat)
    (wParam : Nat) : IterOutcome :=
  match snap with
  | Option.none => IterOutcome.exit wParam 0
  | Option.some hwnds =>
    let swept := sweep getMsg hwnds 0 wParam
    if swept.1.any (fun r => !(decide (r > 0))) then
      IterOutcome.exit swept.2 hwnds.length
    else if swept.1.isEmpty || hwnds.isEmpty then
      IterOutcome.exit swept.2 hwnds.length
    else IterOutcome.next swept.2 hwnds.length

/-- The `hwnds` snapshot: `for win in app.windows.values() \x7b
hwnds.push(win.hwnd) \x7d`. -/
def hwndsSnapshot (m : WindowMap) : List Nat :=
  (mapValues m).map Window.hwnd

/-- Per-iteration snapshot as the loop observes it: `none` when the
iteration's `try_borrow` fails, otherwise the handles of the (unchanged,
in this excerpt) window map. -/
def loopSnapFn (env : RunEnv) (m : WindowMap) (iter : Nat) :
    Option (List Nat) :=
  if env.borrowLoopSnap iter then Option.some (hwndsSnapshot m)
  else Option.none

/-- The dispatch loop with explicit fuel: returns (`some` final
`msg.wParam` if the loop broke within fuel, else `none`) together with the
total number of dispatched messages. -/
def runLoop (env : RunEnv) (snap : Nat → Option (List Nat)) :
    Nat → Nat → Nat → Nat → Option Nat × Nat
  | 0, _iter, _wParam, dispatched => (Option.none, dispatched)
  | Nat.succ fuel, iter, wParam, dispatched =>
    match loopIter (snap iter) (env.getMsg iter) wParam with
    | IterOutcome.exit w d => (Option.some w, dispatched + d)
    | IterOutcome.next w d => runLoop env snap fuel (iter + 1) w (dispatched + d)

/-! ## The top-level `run` (win32.rs 64-189) -/

/-- The `usize → isize` cast on the final `msg.wParam`. -/
def usizeToIsize (n : Nat) : Int :=
  if n < 2 ^ 63 then (n : Int) else (n : Int) - 2 ^ 64

/-- Observable outcome of `run`: `Err(e)`, `Ok(exit_code)`, or fuel
exhaustion of the model (the source loop simply has not terminated yet). -/
inductive RunOutcome : Type where
  | err : WindowsStartupError → RunOutcome
  | ok : Int → RunOutcome
  | outOfFuel : RunOutcome
  deriving DecidableEq

/-- Trace of the externally observable steps of `run`. -/
structure RunTrace where
  classRegistered : Bool
  attempts : List WindowCreateOptions
  states : List WindowMap
  glLoaded : Bool
  shown : List Nat
  loopEntered : Bool
  dispatched : Nat

/-- `run`'s outcome, its trace, and the final GL / DWM tables (absent when
`run` failed before constructing them). -/
structure RunResult where
  outcome : RunOutcome
  trace : RunTrace
  finalGl : Option GlFunctions
  dwm : Option DwmFunctions

/-- Model of `run` (win32.rs 64-189).  Steps, in source order:
`GetModuleHandleW` (null is fatal: `NoAppInstance(GetLastError())`);
`RegisterClassW` (failure ignored); `DwmFunctions::initialize` and
`GlFunctions::initialize`; the startup phase (creation attempts for every
pre-declared window, then the root window, inserting each success under a
`try_borrow_mut`); the context election under a `try_borrow`; the GL
loading block; showing every window under a `try_borrow_mut`; then the
dispatch loop, whose final `msg.wParam` (initially zeroed) is returned as
`Ok(msg.wParam as isize)`. -/
def run (env : RunEnv) (fuel : Nat) (app : App)
    (root_window : WindowCreateOptions) : RunResult :=
  match env.moduleHandle with
  | Option.none =>
    { outcome := RunOutcome.err (WindowsStartupError.NoAppInstance env.lastError),
      trace := { classRegistered := false, attempts := [], states := [],
                 glLoaded := false, shown := [], loopEntered := false,
                 dispatched := 0 },
      finalGl := Option.none, dwm := Option.none }
  | Option.some hinstance =>
    let dwm := DwmFunctions.init env.dwmDll env.dwmGetProc
    let gl := GlFunctions.init env.opengl32Dll
    let su := startup env hinstance app.windows root_window
    match su.result with
    | Except.error e =>
      { outcome := RunOutcome.err e,
        trace := { classRegistered := true, attempts := su.attempts,
                   states := su.states, glLoaded := false, shown := [],
                   loopEntered := false, dispatched := 0 },
        finalGl := Option.some gl, dwm := dwm }
    | Except.ok m =>
      if env.borrowElection then
        let root_context := electRootContext m
        let loaded := glLoadStep env gl root_context
        if env.borrowMutShow then
          let looped := runLoop env (loopSnapFn env m) fuel 0 0 0
          { outcome :=
              match looped.1 with
              | Option.some w => RunOutcome.ok (usizeToIsize w)
              | Option.none => RunOutcome.outOfFuel,
            trace := { classRegistered := true, attempts := su.attempts,
                       states := su.states, glLoaded := loaded.2,
                       shown := hwndsSnapshot m, loopEntered := true,
                       dispatched := looped.2 },
            finalGl := Option.some loaded.1, dwm := dwm }
        else
          { outcome := RunOutcome.err (WindowsStartupError.BorrowMut BorrowMutError.mk),
            trace := { classRegistered := true, attempts := su.attempts,
                       states := su.states, glLoaded := loaded.2, shown := [],
                       loopEntered := false, dispatched := 0 },
            finalGl := Option.some loaded.1, dwm := dwm }
      else
        { outcome := RunOutcome.err (WindowsStartupError.Borrow BorrowError.mk),
          trace := { classRegistered := true, attempts := su.attempts,
                     states := su.states, glLoaded := false, shown := [],
                     loopEntered := false, dispatched := 0 },
          finalGl := Option.some gl, dwm := dwm }

/-- Model of `Window::show` (win32.rs 1279-1283): `ShowWindow` is an OS
side effect; the `Window` struct itself is not modified. -/
def Window.show (w : Window) : Window := w

/-- The per-window invariant from the specification: a window with a
graphics context has a renderer.  `gl_context.isSome = false ∨
renderer.isSome = true` is the propositional form of
`gl_context.is_some() ⇒ renderer.is_some()`. -/
def WindowInv (w : Window) : Prop :=
  w.gl_context.isSome = false ∨ w.renderer.isSome = true

/-- The `Window` literal that `Window::create` returns on a non-null
`CreateWindowExW` result (win32.rs 1268-1276). -/
def createdWindow (hwnd : Nat) (options : WindowCreateOptions) : Window :=
  { hwnd := hwnd,
    state := options.state,
    internal := WindowInternal.mk,
    gl_context := Option.none,
    render_api := WrRenderApi.mk,
    renderer := Option.some WrRenderer.mk,
    hit_tester := WrApiHitTester.mk }

/-! ## Concrete inputs used by the witnesses -/

/-- A default window configuration. -/
def optsDefault : WindowCreateOptions :=
  { state :=
    { title := "",
      platform_specific_options := { windows_options := { parent_window := Option.none } } } }

/-- An `App` with no pre-declared windows. -/
def appEmpty : App :=
  { data := {}, config := {}, windows := [], image_cache := {}, fc_cache := {} }

/-- A baseline environment: module handle present, every borrow succeeds,
no libraries found, every creation fails, `GetMessageW` returns 0. -/
def envBase : RunEnv :=
  { moduleHandle := Option.some 1, lastError := 87,
    dwmDll := Option.none, dwmGetProc := fun _ _ => 0,
    opengl32Dll := Option.none,
    createHwnd := fun _ => Option.none,
    borrowMutInsert := fun _ => true,
    borrowElection := true,
    getDC := fun _ => Option.none,
    borrowGlLoad := true,
    wglGetProc := fun _ => 0, glGetProc := fun _ _ => 0,
    borrowMutShow := true,
    borrowLoopSnap := fun _ => true,
    getMsg := fun _ _ => (0, 0) }

/-- Environment of the 2-extra-windows-plus-root scenario: attempt 0 (an
extra window) yields handle 10, attempt 1 (the other extra window) fails,
attempt 2 (the root window) yields handle 30. -/
def envScenario : RunEnv :=
  { envBase with
    createHwnd := fun i =>
      if i = 0 then Option.some 10
      else if i = 1 then Option.none
      else if i = 2 then Option.some 30
      else Option.none }

/-- The scenario's `App`: two pre-declared window configurations. -/
def appScenario : App :=
  { appEmpty with windows := [optsDefault, optsDefault] }

/-- Startup phase of the scenario. -/
def scenarioStartup : StartupOut :=
  startup envScenario 1 appScenario.windows optsDefault

/-- Final window map of the scenario. -/
def scenarioMap : WindowMap :=
  match scenarioStartup.result with
  | Except.ok m => m
  | Except.error _ => []

/-- The scenario's full `run`. -/
def scenarioRun : RunResult := run envScenario 1 appScenario optsDefault

/-! ## C7 / C8: the optional-value bridge -/

/-- C7: for every payload type `T` and value `x`, converting
`Option::Some(x)` into the wrapper and back through `into_option` yields
`Some(x)` for both the clone variant and the copy variant of
`impl_option!`; converting `Option::None` into the wrapper yields a value
whose `is_none()` is true in all three variants; and the move-only
variant, which offers no `into_option`, still exposes the stored value
unchanged through `as_option`. -/
theorem C7_option_roundtrip {T : Type} (x : T) :
    (AzOption.from_option_clone (Option.some x)).into_option_clone = Option.some x ∧
    (AzOption.from_option_copy (Option.some x)).into_option_copy = Option.some x ∧
    (AzOption.from_option_clone (Option.none : Option T)).is_none = true ∧
    (AzOption.from_option_copy (Option.none : Option T)).is_none = true ∧
    (AzOption.from_option_move (Option.none : Option T)).is_none = true ∧
    (AzOption.from_option_move (Option.some x)).as_option = Option.some x :=
  ⟨rfl, rfl, rfl, rfl, rfl, rfl⟩

/-- C8: `default()` is the `None` variant; `is_some()` is the negation of
`is_none()`; `as_option()` returns `Option::None` exactly on the `None`
variant and returns the contained value on the `Some` variant. -/
theorem C8_option_wrapper_basics {T : Type} (v : AzOption T) (t : T) :
    (AzOption.default : AzOption T) = AzOption.None ∧
    v.is_some = !v.is_none ∧
    (v.as_option = Option.none ↔ v = AzOption.None) ∧
    (AzOption.Some t).as_option = Option.some t := by
  refine ⟨rfl, ?_, ?_, rfl⟩
  · cases v <;> rfl
  · cases v <;> simp [AzOption.as_option]

/-- Witness for C8 at `T := Nat`. -/
theorem C8_option_wrapper_basics_witness :
    (AzOption.Some 5).as_option = Option.none ↔ (AzOption.Some 5 : AzOption Nat) = AzOption.None :=
  (C8_option_wrapper_basics (AzOption.Some 5) 5).2.2.1

/-! ## C2: symbol resolution protocol of `get_func` / `GlFunctions::load` -/

/-- C2: the loaded table stores `get_func` of every symbol name;
`get_func` returns the context resolver's address whenever it is non-null
(hit/hit and hit/miss); on a context miss it falls back to the static
export table when the `opengl32.dll` handle is present (miss/hit); when
both sources miss — or the handle is absent — the stored entry is the
null address.  `get_func` is a total function, so the loader completes in
every combination of outcomes without an error path. -/
theorem C2_get_func_resolution (wgl : String → Nat) (gpa : Nat → String → Nat)
    (g : GlFunctions) (dll : Option Nat) (d : Nat) (s : String) :
    ((g.load wgl gpa).functions.getProc s = get_func wgl gpa s g._opengl32_dll_handle) ∧
    (wgl s ≠ 0 → get_func wgl gpa s dll = wgl s) ∧
    (wgl s = 0 → dll = Option.some d → get_func wgl gpa s dll = gpa d s) ∧
    (wgl s = 0 → dll = Option.none → get_func wgl gpa s dll = 0) ∧
    (wgl s = 0 → dll = Option.some d → gpa d s = 0 → get_func wgl gpa s dll = 0) := by
  refine ⟨rfl, ?_, ?_, ?_, ?_⟩
  · intro h; simp [get_func, h]
  · intro h hd; subst hd; simp [get_func, h]
  · intro h hd; subst hd; simp [get_func, h]
  · intro h hd hz; subst hd; simp [get_func, h, hz]

/-- Witness for C2: a miss/hit resolution through the static table, and a
miss/miss resolution yielding a null entry. -/
theorem C2_get_func_resolution_witness :
    get_func (fun _ => 0) (fun _ _ => 7) "glAccum" (Option.some 3) = 7 ∧
    get_func (fun _ => 0) (fun _ _ => 0) "glAccum" (Option.some 3) = 0 ∧
    ((GlFunctions.init (Option.some 3)).load (fun _ => 0) (fun _ _ => 7)).functions.getProc "glAccum" =
      get_func (fun _ => 0) (fun _ _ => 7) "glAccum" (Option.some 3) :=
  ⟨(C2_get_func_resolution (fun _ => 0) (fun _ _ => 7)
      (GlFunctions.init (Option.some 3)) (Option.some 3) 3 "glAccum").2.2.1 rfl rfl,
   (C2_get_func_resolution (fun _ => 0) (fun _ _ => 0)
      (GlFunctions.init (Option.some 3)) (Option.some 3) 3 "glAccum").2.2.2.2 rfl rfl rfl,
   (C2_get_func_resolution (fun _ => 0) (fun _ _ => 7)
      (GlFunctions.init (Option.some 3)) (Option.some 3) 3 "glAccum").1⟩

/-! ## C5: null module handle is fatal and immediate -/

/-- C5: when `GetModuleHandleW` returns null, `run` returns
`Err(NoAppInstance(GetLastError()))` immediately: the trace records no
class registration, no creation attempts, no intermediate maps, no GL
loading, no shown window, no loop entry and no dispatched message. -/
theorem C5_no_app_instance (env : RunEnv) (fuel : Nat) (app : App)
    (root_window : WindowCreateOptions) (h : env.moduleHandle = Option.none) :
    run env fuel app root_window =
      { outcome := RunOutcome.err (WindowsStartupError.NoAppInstance env.lastError),
        trace := { classRegistered := false, attempts := [], states := [],
                   glLoaded := false, shown := [], loopEntered := false,
                   dispatched := 0 },
        finalGl := Option.none, dwm := Option.none } := by
  simp only [run, h]

/-- Witness for C5 at a concrete environment. -/
theorem C5_no_app_instance_witness :
    run { envBase with moduleHandle := Option.none } 1 appEmpty optsDefault =
      { outcome := RunOutcome.err (WindowsStartupError.NoAppInstance 87),
        trace := { classRegistered := false, attempts := [], states := [],
                   glLoaded := false, shown := [], loopEntered := false,
                   dispatched := 0 },
        finalGl := Option.none, dwm := Option.none } :=
  C5_no_app_instance { envBase with moduleHandle := Option.none } 1 appEmpty optsDefault rfl

/-! ## Helper lemmas about the startup phase -/

/-- `Window::create` on a non-null handle returns the fixed window
literal. -/
theorem create_some (h le hi : Nat) (o : WindowCreateOptions) :
    Window.create (Option.some h) le hi o = Except.ok (createdWindow h o) := rfl

/-- `Window::create` on a null handle fails with the platform error
code. -/
theorem create_none (le hi : Nat) (o : WindowCreateOptions) :
    Window.create Option.none le hi o =
      Except.error (WindowsWindowCreateError.FailedToCreateHWND le) := rfl

/-- A creation attempt whose borrow succeeds cannot abort the startup
phase. -/
theorem startupStep_borrow_ok (env : RunEnv) (hinstance idx : Nat)
    (o : WindowCreateOptions) (m : WindowMap)
    (hb : env.borrowMutInsert idx = true) :
    ∃ m', startupStep env hinstance idx o m = Except.ok m' := by
  unfold startupStep
  cases hc : env.createHwnd idx with
  | none => exact ⟨m, by simp [create_none]⟩
  | some h => exact ⟨insertMap h (createdWindow h o) m, by simp [create_some, hb, createdWindow, Window.get_id]⟩

/-- Under an always-succeeding borrow oracle, the creation loop attempts
exactly the given configurations, in order, and never aborts. -/
theorem startupLoop_borrow_ok (env : RunEnv) (hinstance : Nat)
    (hb : ∀ i, env.borrowMutInsert i = true) :
    ∀ (opts : List WindowCreateOptions) (idx : Nat) (m : WindowMap),
      (startupLoop env hinstance idx opts m).attempts = opts ∧
      ∃ m', (startupLoop env hinstance idx opts m).result = Except.ok m' := by
  intro opts
  induction opts with
  | nil => exact fun idx m => ⟨rfl, m, rfl⟩
  | cons o rest ih =>
    intro idx m
    obtain ⟨m2, hstep⟩ := startupStep_borrow_ok env hinstance idx o m (hb idx)
    obtain ⟨ha, m3, hr⟩ := ih (idx + 1) m2
    refine ⟨?_, m3, ?_⟩ <;> simp [startupLoop, hstep, ha, hr]

/-- C9: the startup phase attempts the root window's creation last, after
every pre-declared configuration and in addition to them, for every
outcome of the individual creation attempts (the borrow of the shared
runtime is assumed conflict-free, as a borrow conflict aborts startup
altogether). -/
theorem C9_root_window_last (env : RunEnv) (hinstance : Nat)
    (windows : List WindowCreateOptions) (root_window : WindowCreateOptions)
    (hb : ∀ i, env.borrowMutInsert i = true) :
    (startup env hinstance windows root_window).attempts = windows ++ [root_window] := by
  obtain ⟨ha, m, hr⟩ := startupLoop_borrow_ok env hinstance hb windows 0 []
  obtain ⟨m2, hstep⟩ := startupStep_borrow_ok env hinstance windows.length root_window m (hb _)
  simp [startup, hr, hstep, ha]

/-- Witness for C9: the scenario (one extra creation succeeding, one
failing) still attempts the root window last. -/
theorem C9_root_window_last_witness :
    (startup envScenario 1 appScenario.windows optsDefault).attempts =
      appScenario.windows ++ [optsDefault] :=
  C9_root_window_last envScenario 1 appScenario.windows optsDefault (fun _ => rfl)

/-! ## Key-set lemmas for the window map -/

/-- Membership in the keys of `insertMap`. -/
theorem mem_insertMap_keys (k ki : Nat) (v : Window) (m : WindowMap) :
    k ∈ mapKeys (insertMap ki v m) ↔ k = ki ∨ k ∈ mapKeys m := by
  induction m with
  | nil => simp [insertMap, mapKeys]
  | cons hd tl ih =>
    by_cases h1 : ki < hd.1
    · simp [insertMap, h1, mapKeys]
    · by_cases h2 : ki = hd.1
      · subst h2; simp [insertMap, h1, mapKeys]
      · simp only [insertMap, if_neg h1, if_neg h2, mapKeys, List.map_cons,
          List.mem_cons] at ih ⊢
        tauto

/-- Splitting an existential over `j < n + 1` at the front index. -/
theorem exists_lt_succ_shift (P : Nat → Prop) (n idx : Nat) :
    (∃ j, j < n + 1 ∧ P (idx + j)) ↔ P idx ∨ ∃ j, j < n ∧ P (idx + 1 + j) := by
  constructor
  · rintro ⟨j, hj, hp⟩
    cases j with
    | zero => exact Or.inl (by simpa using hp)
    | succ j' =>
      refine Or.inr ⟨j', by omega, ?_⟩
      have he : idx + 1 + j' = idx + (j' + 1) := by omega
      rw [he]; exact hp
  · rintro (hp | ⟨j, hj, hp⟩)
    · exact ⟨0, by omega, by simpa using hp⟩
    · refine ⟨j + 1, by omega, ?_⟩
      have he : idx + (j + 1) = idx + 1 + j := by omega
      rw [he]; exact hp

/-- Splitting an existential over `i < n + 1` at the last index. -/
theorem exists_lt_succ_split (P : Nat → Prop) (n : Nat) :
    (∃ i, i < n + 1 ∧ P i) ↔ (∃ i, i < n ∧ P i) ∨ P n := by
  constructor
  · rintro ⟨i, hi, hp⟩
    rcases Nat.lt_succ_iff_lt_or_eq.mp hi with h | h
    · exact Or.inl ⟨i, h, hp⟩
    · subst h; exact Or.inr hp
  · rintro (⟨i, hi, hp⟩ | hp)
    · exact ⟨i, by omega, hp⟩
    · exact ⟨n, by omega, hp⟩

/-- Keys of the map produced by the creation loop: exactly the handles of
the successful creation attempts, plus the keys already present. -/
theorem startupLoop_keys (env : RunEnv) (hinstance : Nat)
    (hb : ∀ i, env.borrowMutInsert i = true) :
    ∀ (opts : List WindowCreateOptions) (idx : Nat) (m mr : WindowMap),
      (startupLoop env hinstance idx opts m).result = Except.ok mr →
      ∀ k, k ∈ mapKeys mr ↔
        (∃ j, j < opts.length ∧ env.createHwnd (idx + j) = Option.some k) ∨
        k ∈ mapKeys m := by
  intro opts
  induction opts with
  | nil =>
    intro idx m mr hok k
    simp only [startupLoop] at hok
    cases hok
    simp
  | cons o rest ih =>
    intro idx m mr hok k
    cases hc : env.createHwnd idx with
    | none =>
      have hstep : startupStep env hinstance idx o m = Except.ok m := by
        simp [startupStep, hc, create_none]
      simp only [startupLoop, hstep] at hok
      rw [ih (idx + 1) m mr hok k]
      rw [List.length_cons,
        exists_lt_succ_shift (fun i => env.createHwnd i = Option.some k) rest.length idx]
      simp [hc]
    | some h =>
      have hstep : startupStep env hinstance idx o m =
          Except.ok (insertMap h (createdWindow h o) m) := by
        simp [startupStep, hc, create_some, hb idx, createdWindow, Window.get_id]
      simp only [startupLoop, hstep] at hok
      rw [ih (idx + 1) (insertMap h (createdWindow h o) m) mr hok k]
      rw [mem_insertMap_keys, List.length_cons,
        exists_lt_succ_shift (fun i => env.createHwnd i = Option.some k) rest.length idx]
      simp only [hc, Option.some.injEq]
      constructor
      · rintro (he | hk | hm)
        · exact Or.inl (Or.inr he)
        · exact Or.inl (Or.inl hk.symm)
        · exact Or.inr hm
      · rintro ((hk | he) | hm)
        · exact Or.inr (Or.inl hk.symm)
        · exact Or.inl he
        · exact Or.inr (Or.inr hm)

/-- `get_id` of the window literal returned by `Window::create`. -/
theorem createdWindow_get_id (h : Nat) (o : WindowCreateOptions) :
    (createdWindow h o).get_id = h := rfl

/-- The empty map has no keys. -/
theorem mapKeys_nil : mapKeys ([] : WindowMap) = [] := rfl

/-! ## C3: per-window creation failure is non-fatal -/

/-- C3: with conflict-free startup borrows, the final window map contains
exactly the handles of the successful creation attempts — a failed
`Window::create` leaves its window absent while every sibling is
inserted.  In particular, in the concrete scenario of 2 extra windows
plus the root window where the second extra window's native allocation
fails, the final map holds exactly the 2 windows with handles 10 (the
successful extra) and 30 (the root), and exactly those 2 are shown. -/
theorem C3_create_failure_nonfatal :
    (∀ (env : RunEnv) (hinstance : Nat) (windows : List WindowCreateOptions)
       (root_window : WindowCreateOptions) (m : WindowMap),
       (∀ i, env.borrowMutInsert i = true) →
       (startup env hinstance windows root_window).result = Except.ok m →
       ∀ k, k ∈ mapKeys m ↔
         ∃ i, i < windows.length + 1 ∧ env.createHwnd i = Option.some k) ∧
    (mapKeys scenarioMap = [10, 30] ∧ scenarioMap.length = 2 ∧
     scenarioRun.trace.shown = [10, 30]) := by
  constructor
  · intro env hinstance windows root_window m hb hok k
    obtain ⟨ha, ml, hl⟩ := startupLoop_borrow_ok env hinstance hb windows 0 []
    rw [exists_lt_succ_split (fun i => env.createHwnd i = Option.some k) windows.length]
    simp only [startup, hl] at hok
    cases hstep : startupStep env hinstance windows.length root_window ml with
    | error e => rw [hstep] at hok; simp at hok
    | ok m2 =>
      rw [hstep] at hok
      simp only [Except.ok.injEq] at hok
      subst hok
      have hml := startupLoop_keys env hinstance hb windows 0 [] ml hl k
      simp only [mapKeys_nil, List.not_mem_nil, or_false, Nat.zero_add] at hml
      unfold startupStep at hstep
      cases hc : env.createHwnd windows.length with
      | none =>
        rw [hc, create_none] at hstep
        simp only [Except.ok.injEq] at hstep
        subst hstep
        rw [hml]
        simp [hc]
      | some h =>
        rw [hc, create_some] at hstep
        simp only [hb windows.length, if_true, createdWindow_get_id,
          Except.ok.injEq] at hstep
        subst hstep
        rw [mem_insertMap_keys, hml]
        constructor
        · rintro (hk | he)
          · exact Or.inr (by rw [hk])
          · exact Or.inl he
        · rintro (he | hp)
          · exact Or.inr he
          · exact Or.inl (Option.some.inj hp).symm
  · exact ⟨rfl, rfl, rfl⟩

/-- Witness for C3: the general characterization applied to the concrete
scenario map. -/
theorem C3_create_failure_nonfatal_witness :
    10 ∈ mapKeys scenarioMap ↔
      ∃ i, i < appScenario.windows.length + 1 ∧
        envScenario.createHwnd i = Option.some 10 :=
  C3_create_failure_nonfatal.1 envScenario 1 appScenario.windows optsDefault
    scenarioMap (fun _ => rfl) rfl 10

/-! ## Membership preservation through the startup phase -/

/-- Every entry of `insertMap ki v m` is the inserted pair or an entry of
`m`. -/
theorem mem_insertMap (kv : Nat × Window) (ki : Nat) (v : Window) (m : WindowMap) :
    kv ∈ insertMap ki v m → kv = (ki, v) ∨ kv ∈ m := by
  induction m with
  | nil => simp [insertMap]
  | cons hd tl ih =>
    simp only [insertMap]
    split
    · intro h; simpa using h
    · split
      · intro h
        rcases List.mem_cons.mp h with h | h
        · exact Or.inl h
        · exact Or.inr (List.mem_cons_of_mem _ h)
      · intro h
        rcases List.mem_cons.mp h with h | h
        · exact Or.inr (by rw [h]; exact List.mem_cons_self _ _)
        · rcases ih h with h2 | h2
          · exact Or.inl h2
          · exact Or.inr (List.mem_cons_of_mem _ h2)

/-- Equation for a creation attempt whose native allocation fails: the
map is unchanged (`if let Ok(w)` skips the insertion). -/
theorem startupStep_none (env : RunEnv) (hinstance idx : Nat)
    (o : WindowCreateOptions) (m : WindowMap)
    (hc : env.createHwnd idx = Option.none) :
    startupStep env hinstance idx o m = Except.ok m := by
  simp [startupStep, hc, create_none]

/-- Equation for a successful creation attempt with a successful borrow:
the created window is inserted under its id. -/
theorem startupStep_some_ok (env : RunEnv) (hinstance idx : Nat)
    (o : WindowCreateOptions) (m : WindowMap) (h : Nat)
    (hc : env.createHwnd idx = Option.some h)
    (hb : env.borrowMutInsert idx = true) :
    startupStep env hinstance idx o m =
      Except.ok (insertMap h (createdWindow h o) m) := by
  simp [startupStep, hc, create_some, hb, createdWindow_get_id]

/-- Equation for a successful creation attempt whose borrow conflicts:
startup aborts with the `BorrowMut` error. -/
theorem startupStep_some_fail (env : RunEnv) (hinstance idx : Nat)
    (o : WindowCreateOptions) (m : WindowMap) (h : Nat)
    (hc : env.createHwnd idx = Option.some h)
    (hb : env.borrowMutInsert idx = false) :
    startupStep env hinstance idx o m =
      Except.error (WindowsStartupError.BorrowMut BorrowMutError.mk) := by
  simp [startupStep, hc, create_some, hb]

/-- A property holding of every created window and every entry of the map
is preserved by one creation attempt. -/
theorem startupStep_all (P : Window → Prop) (hP : ∀ h o, P (createdWindow h o))
    (env : RunEnv) (hinstance idx : Nat) (o : WindowCreateOptions)
    (m m2 : WindowMap) (hstep : startupStep env hinstance idx o m = Except.ok m2)
    (hm : ∀ kv ∈ m, P kv.2) : ∀ kv ∈ m2, P kv.2 := by
  cases hc : env.createHwnd idx with
  | none =>
    rw [startupStep_none env hinstance idx o m hc] at hstep
    cases hstep
    exact hm
  | some h =>
    cases hb : env.borrowMutInsert idx with
    | true =>
      rw [startupStep_some_ok env hinstance idx o m h hc hb] at hstep
      cases hstep
      intro kv hkv
      rcases mem_insertMap kv _ _ _ hkv with h2 | h2
      · rw [h2]; exact hP h o
      · exact hm kv h2
    | false =>
      rw [startupStep_some_fail env hinstance idx o m h hc hb] at hstep
      simp at hstep

/-- The same property holds of every entry of every intermediate map of
the creation loop, and of the loop's final map. -/
theorem startupLoop_all (P : Window → Prop) (hP : ∀ h o, P (createdWindow h o))
    (env : RunEnv) (hinstance : Nat) :
    ∀ (opts : List WindowCreateOptions) (idx : Nat) (m : WindowMap),
      (∀ kv ∈ m, P kv.2) →
      (∀ m' ∈ (startupLoop env hinstance idx opts m).states, ∀ kv ∈ m', P kv.2) ∧
      (∀ m', (startupLoop env hinstance idx opts m).result = Except.ok m' →
         ∀ kv ∈ m', P kv.2) := by
  intro opts
  induction opts with
  | nil =>
    intro idx m hm
    refine ⟨?_, ?_⟩
    · intro m' hm'; simp [startupLoop] at hm'
    · intro m' hok
      simp only [startupLoop] at hok
      cases hok
      exact hm
  | cons o rest ih =>
    intro idx m hm
    cases hstep : startupStep env hinstance idx o m with
    | error e =>
      refine ⟨?_, ?_⟩
      · intro m' hm'; simp [startupLoop, hstep] at hm'
      · intro m' hok; simp [startupLoop, hstep] at hok
    | ok m2 =>
      have hm2 := startupStep_all P hP env hinstance idx o m m2 hstep hm
      obtain ⟨ihs, ihr⟩ := ih (idx + 1) m2 hm2
      refine ⟨?_, ?_⟩
      · intro m' hm'
        simp only [startupLoop, hstep] at hm'
        rcases List.mem_cons.mp hm' with h | h
        · subst h; exact hm2
        · exact ihs m' h
      · intro m' hok
        simp only [startupLoop, hstep] at hok
        exact ihr m' hok

/-- The same property holds at every observation point of the whole
startup phase — every intermediate map and the final map. -/
theorem startup_all (P : Window → Prop) (hP : ∀ h o, P (createdWindow h o))
    (env : RunEnv) (hinstance : Nat) (windows : List WindowCreateOptions)
    (root_window : WindowCreateOptions) :
    (∀ m' ∈ (startup env hinstance windows root_window).states,
       ∀ kv ∈ m', P kv.2) ∧
    (∀ m, (startup env hinstance windows root_window).result = Except.ok m →
       ∀ kv ∈ m, P kv.2) := by
  obtain ⟨hs, hr⟩ := startupLoop_all P hP env hinstance windows 0 [] (by simp)
  cases hl : (startupLoop env hinstance 0 windows []).result with
  | error e =>
    simp only [startup, hl]
    refine ⟨hs, ?_⟩
    intro m hok
    simp at hok
  | ok ml =>
    have hml := hr ml hl
    cases hstep : startupStep env hinstance windows.length root_window ml with
    | error e =>
      simp only [startup, hl, hstep]
      refine ⟨hs, ?_⟩
      intro m hok; simp at hok
    | ok m2 =>
      have hm2 := startupStep_all P hP env hinstance windows.length root_window
        ml m2 hstep hml
      simp only [startup, hl, hstep]
      refine ⟨?_, ?_⟩
      · intro m' hm'
        rcases List.mem_append.mp hm' with h | h
        · exact hs m' h
        · have he : m' = m2 := by simpa using h
          subst he; exact hm2
      · intro m hok
        simp only [Except.ok.injEq] at hok
        subst hok; exact hm2

/-! ## C6: the graphics-context / renderer invariant -/

/-- C6: every window successfully returned by `Window::create` satisfies
the invariant that a present `gl_context` implies a present `renderer`;
the invariant holds of every window of every intermediate map during
startup and of the final map (the maps observed at show time and by every
dispatch-loop iteration are this unmodified final map); and `show` leaves
the window — hence the invariant — untouched. -/
theorem C6_gl_renderer_invariant :
    (∀ (hr : Option Nat) (le hi : Nat) (o : WindowCreateOptions) (w : Window),
       Window.create hr le hi o = Except.ok w → WindowInv w) ∧
    (∀ (env : RunEnv) (hinstance : Nat) (windows : List WindowCreateOptions)
       (root_window : WindowCreateOptions),
       (∀ m' ∈ (startup env hinstance windows root_window).states,
          ∀ kv ∈ m', WindowInv kv.2) ∧
       (∀ m, (startup env hinstance windows root_window).result = Except.ok m →
          ∀ kv ∈ m, WindowInv kv.2)) ∧
    (∀ w : Window, Window.show w = w) := by
  have hcw : ∀ h o, WindowInv (createdWindow h o) := fun _ _ => Or.inl rfl
  refine ⟨?_, ?_, fun _ => rfl⟩
  · intro hr le hi o w hok
    cases hr with
    | none => simp [create_none] at hok
    | some h =>
      rw [create_some] at hok
      cases hok
      exact hcw h o
  · intro env hinstance windows root_window
    exact startup_all WindowInv hcw env hinstance windows root_window

/-- Witness for C6: the invariant at a concretely created window and at an
entry of the scenario's final map. -/
theorem C6_gl_renderer_invariant_witness :
    WindowInv (createdWindow 5 optsDefault) ∧
    WindowInv (createdWindow 10 optsDefault) :=
  ⟨C6_gl_renderer_invariant.1 (Option.some 5) 0 1 optsDefault
      (createdWindow 5 optsDefault) rfl,
   (C6_gl_renderer_invariant.2.1 envScenario 1 appScenario.windows optsDefault).2
      scenarioMap rfl (10, createdWindow 10 optsDefault) (List.Mem.head _)⟩

/-! ## C10: no window of the excerpt carries a graphics context -/

/-- `find?` over windows all lacking a graphics context finds nothing. -/
theorem find_isSome_none (l : List Window)
    (h : ∀ w ∈ l, w.gl_context = Option.none) :
    l.find? (fun w => w.gl_context.isSome) = Option.none := by
  induction l with
  | nil => rfl
  | cons hd tl ih =>
    have hh : hd.gl_context = Option.none := h hd (List.mem_cons_self _ _)
    simp only [List.find?, hh, Option.isSome_none]
    exact ih fun w hw => h w (List.mem_cons_of_mem _ hw)

/-- The context election returns nothing over a map of context-free
windows. -/
theorem elect_none (m : WindowMap)
    (h : ∀ kv ∈ m, kv.2.gl_context = Option.none) :
    electRootContext m = Option.none := by
  have hf : (mapValues m).find? (fun w => w.gl_context.isSome) = Option.none := by
    apply find_isSome_none
    intro w hw
    rcases List.mem_map.mp hw with ⟨kv, hkv, he⟩
    rw [← he]
    exact h kv hkv
  simp [electRootContext, hf]

/-- C10: every window returned by `Window::create` has `gl_context = None`
("initialized later"); hence the election of a first window with a
graphics context over any startup-produced map finds none; hence `run`
never invokes `GlFunctions::load` and its graphics table stays the
zero-initialized, all-null table for the entire run. -/
theorem C10_gl_context_none :
    (∀ (hr : Option Nat) (le hi : Nat) (o : WindowCreateOptions) (w : Window),
       Window.create hr le hi o = Except.ok w → w.gl_context = Option.none) ∧
    (∀ (env : RunEnv) (hinstance : Nat) (windows : List WindowCreateOptions)
       (root_window : WindowCreateOptions) (m : WindowMap),
       (startup env hinstance windows root_window).result = Except.ok m →
       electRootContext m = Option.none) ∧
    (∀ (env : RunEnv) (fuel : Nat) (app : App) (root_window : WindowCreateOptions),
       (run env fuel app root_window).trace.glLoaded = false ∧
       (∀ g, (run env fuel app root_window).finalGl = Option.some g →
          ∀ s, g.functions.getProc s = 0)) := by
  have h1 : ∀ (hr : Option Nat) (le hi : Nat) (o : WindowCreateOptions) (w : Window),
      Window.create hr le hi o = Except.ok w → w.gl_context = Option.none := by
    intro hr le hi o w hok
    cases hr with
    | none => simp [create_none] at hok
    | some h =>
      rw [create_some] at hok
      cases hok
      rfl
  have h2 : ∀ (env : RunEnv) (hinstance : Nat) (windows : List WindowCreateOptions)
      (root_window : WindowCreateOptions) (m : WindowMap),
      (startup env hinstance windows root_window).result = Except.ok m →
      electRootContext m = Option.none := by
    intro env hinstance windows root_window m hok
    apply elect_none
    exact (startup_all (fun w => w.gl_context = Option.none) (fun _ _ => rfl)
      env hinstance windows root_window).2 m hok
  refine ⟨h1, h2, ?_⟩
  intro env fuel app root_window
  cases hmod : env.moduleHandle with
  | none =>
    refine ⟨by simp [run, hmod], ?_⟩
    intro g hg
    rw [C5_no_app_instance env fuel app root_window hmod] at hg
    simp at hg
  | some hinstance =>
    cases hsu : (startup env hinstance app.windows root_window).result with
    | error e =>
      simp only [run, hmod, hsu]
      refine ⟨trivial, ?_⟩
      intro g hg s
      cases hg
      rfl
    | ok m =>
      have hel := h2 env hinstance app.windows root_window m hsu
      cases hbe : env.borrowElection with
      | false =>
        simp only [run, hmod, hsu, hbe, Bool.false_eq_true, if_false]
        refine ⟨trivial, ?_⟩
        intro g hg s
        cases hg
        rfl
      | true =>
        cases hbs : env.borrowMutShow with
        | false =>
          simp only [run, hmod, hsu, hbe, hbs, if_true, Bool.false_eq_true,
            if_false, hel]
          refine ⟨by simp [glLoadStep], ?_⟩
          intro g hg s
          simp only [glLoadStep] at hg
          cases hg
          rfl
        | true =>
          simp only [run, hmod, hsu, hbe, hbs, if_true, hel]
          refine ⟨by simp [glLoadStep], ?_⟩
          intro g hg s
          simp only [glLoadStep] at hg
          cases hg
          rfl

/-- Witness for C10: in the concrete scenario, the GL loader never ran and
the final table is all-null at a sample symbol. -/
theorem C10_gl_context_none_witness :
    (run envScenario 1 appScenario optsDefault).trace.glLoaded = false ∧
    (GlFunctions.init Option.none).functions.getProc "glClear" = 0 :=
  ⟨(C10_gl_context_none.2.2 envScenario 1 appScenario optsDefault).1,
   (C10_gl_context_none.2.2 envScenario 1 appScenario optsDefault).2
     (GlFunctions.init Option.none) rfl "glClear"⟩

/-! ## C1: dispatch loop termination -/

/-- One status code is collected per polled handle. -/
theorem sweep_results_length (getMsg : Nat → Int × Nat) :
    ∀ (hwnds : List Nat) (j wParam : Nat),
      (sweep getMsg hwnds j wParam).1.length = hwnds.length := by
  intro hwnds
  induction hwnds with
  | nil => intro j w; rfl
  | cons hd tl ih => intro j w; simp [sweep, ih]

/-- C1: (empty snapshot) an iteration whose handle snapshot is empty exits
the loop with zero messages dispatched; (bad status) an iteration one of
whose collected statuses is not strictly positive exits the loop;
(progress) an iteration with a nonempty snapshot and all statuses
strictly positive continues; and whenever `run` reaches the loop, its
result is exactly `Ok(msg.wParam as isize)` of the loop's final
`msg.wParam` (or the loop has not yet terminated within the fuel). -/
theorem C1_loop_termination :
    (∀ (getMsg : Nat → Int × Nat) (wParam : Nat),
       loopIter (Option.some []) getMsg wParam = IterOutcome.exit wParam 0) ∧
    (∀ (getMsg : Nat → Int × Nat) (hwnds : List Nat) (wParam : Nat),
       (∃ r ∈ (sweep getMsg hwnds 0 wParam).1, ¬ r > 0) →
       loopIter (Option.some hwnds) getMsg wParam =
         IterOutcome.exit (sweep getMsg hwnds 0 wParam).2 hwnds.length) ∧
    (∀ (getMsg : Nat → Int × Nat) (hwnds : List Nat) (wParam : Nat),
       hwnds ≠ [] →
       (∀ r ∈ (sweep getMsg hwnds 0 wParam).1, r > 0) →
       loopIter (Option.some hwnds) getMsg wParam =
         IterOutcome.next (sweep getMsg hwnds 0 wParam).2 hwnds.length) ∧
    (∀ (env : RunEnv) (fuel : Nat) (app : App) (root_window : WindowCreateOptions)
       (hinstance : Nat) (m : WindowMap),
       env.moduleHandle = Option.some hinstance →
       (startup env hinstance app.windows root_window).result = Except.ok m →
       env.borrowElection = true → env.borrowMutShow = true →
       (run env fuel app root_window).outcome =
         (match (runLoop env (loopSnapFn env m) fuel 0 0 0).1 with
          | Option.some w => RunOutcome.ok (usizeToIsize w)
          | Option.none => RunOutcome.outOfFuel)) := by
  refine ⟨fun _ _ => rfl, ?_, ?_, ?_⟩
  · intro getMsg hwnds wParam hex
    have hany : (sweep getMsg hwnds 0 wParam).1.any (fun r => !(decide (r > 0))) = true := by
      rcases hex with ⟨r, hr, hpos⟩
      exact List.any_eq_true.mpr ⟨r, hr, by simpa using hpos⟩
    simp only [loopIter, hany, if_true]
  · intro getMsg hwnds wParam hne hall
    cases hwnds with
    | nil => exact absurd rfl hne
    | cons hd tl =>
      have hany : (sweep getMsg (hd :: tl) 0 wParam).1.any
          (fun r => !(decide (r > 0))) = false := by
        cases h : (sweep getMsg (hd :: tl) 0 wParam).1.any (fun r => !(decide (r > 0))) with
        | false => rfl
        | true =>
          rcases List.any_eq_true.mp h with ⟨r, hr, hp⟩
          simp only [Bool.not_eq_true', decide_eq_false_iff_not] at hp
          exact absurd (hall r hr) hp
      have hres : (sweep getMsg (hd :: tl) 0 wParam).1 ≠ [] := by
        intro hcon
        have hlen := sweep_results_length getMsg (hd :: tl) 0 wParam
        rw [hcon] at hlen
        simp at hlen
      have hemp : ((sweep getMsg (hd :: tl) 0 wParam).1.isEmpty
          || (hd :: tl).isEmpty) = false := by
        have h1 : (sweep getMsg (hd :: tl) 0 wParam).1.isEmpty = false := by
          cases hsw : (sweep getMsg (hd :: tl) 0 wParam).1 with
          | nil => exact absurd hsw hres
          | cons a l => rfl
        simp [h1]
      simp only [loopIter, hany, Bool.false_eq_true, if_false, hemp]
  · intro env fuel app root_window hinstance m hmod hok hbe hbs
    simp only [run, hmod, hok, hbe, hbs, if_true]

/-- Witness for C1: an empty snapshot exits with no dispatch; a
non-positive status exits; positive statuses continue; and a run over an
empty window set returns `Ok(0)`. -/
theorem C1_loop_termination_witness :
    loopIter (Option.some []) (fun _ => (1, 5)) 7 = IterOutcome.exit 7 0 ∧
    loopIter (Option.some [11]) (fun _ => (0, 4)) 0 = IterOutcome.exit 4 1 ∧
    loopIter (Option.some [11]) (fun _ => (1, 9)) 0 = IterOutcome.next 9 1 ∧
    (run envBase 1 appEmpty optsDefault).outcome = RunOutcome.ok (usizeToIsize 0) :=
  ⟨C1_loop_termination.1 (fun _ => (1, 5)) 7,
   C1_loop_termination.2.1 (fun _ => (0, 4)) [11] 0 (by decide),
   C1_loop_termination.2.2.1 (fun _ => (1, 9)) [11] 0 (by decide) (by decide),
   C1_loop_termination.2.2.2 envBase 1 appEmpty optsDefault 1 [] rfl rfl rfl rfl⟩

/-! ## C4: borrow conflicts -/

/-- A dispatch-loop iteration whose handle-snapshot borrow fails breaks
the loop immediately, surfacing the current `msg.wParam`. -/
theorem runLoop_borrow_fail (env : RunEnv) (m : WindowMap)
    (fuel iter wParam d : Nat) (hb : env.borrowLoopSnap iter = false) :
    runLoop env (loopSnapFn env m) (fuel + 1) iter wParam d =
      (Option.some wParam, d) := by
  simp only [runLoop, loopSnapFn, hb, Bool.false_eq_true, if_false, loopIter,
    Nat.add_zero]

/-- C4: a borrow conflict is surfaced as the distinct `Borrow` /
`BorrowMut` variant of `WindowsStartupError` (converted from the
checked-borrow failure).  During startup it aborts `run` with that error:
at a window insertion (conjunct 1 and its propagation, conjunct 2), at
the context election (conjunct 3), and at the showing of the windows
(conjunct 4).  During the dispatch loop's per-iteration handle snapshot
it instead breaks the loop (conjunct 5), so `run` still returns `Ok`
(conjunct 6). -/
theorem C4_borrow_conflict :
    (∀ (env : RunEnv) (hinstance idx : Nat) (o : WindowCreateOptions)
       (m : WindowMap) (h : Nat),
       env.createHwnd idx = Option.some h → env.borrowMutInsert idx = false →
       startupStep env hinstance idx o m =
         Except.error (WindowsStartupError.BorrowMut BorrowMutError.mk)) ∧
    (∀ (env : RunEnv) (fuel : Nat) (app : App) (root_window : WindowCreateOptions)
       (hinstance : Nat) (e : WindowsStartupError),
       env.moduleHandle = Option.some hinstance →
       (startup env hinstance app.windows root_window).result = Except.error e →
       (run env fuel app root_window).outcome = RunOutcome.err e) ∧
    (∀ (env : RunEnv) (fuel : Nat) (app : App) (root_window : WindowCreateOptions)
       (hinstance : Nat) (m : WindowMap),
       env.moduleHandle = Option.some hinstance →
       (startup env hinstance app.windows root_window).result = Except.ok m →
       env.borrowElection = false →
       (run env fuel app root_window).outcome =
         RunOutcome.err (WindowsStartupError.Borrow BorrowError.mk)) ∧
    (∀ (env : RunEnv) (fuel : Nat) (app : App) (root_window : WindowCreateOptions)
       (hinstance : Nat) (m : WindowMap),
       env.moduleHandle = Option.some hinstance →
       (startup env hinstance app.windows root_window).result = Except.ok m →
       env.borrowElection = true → env.borrowMutShow = false →
       (run env fuel app root_window).outcome =
         RunOutcome.err (WindowsStartupError.BorrowMut BorrowMutError.mk)) ∧
    (∀ (env : RunEnv) (m : WindowMap) (fuel iter wParam d : Nat),
       env.borrowLoopSnap iter = false →
       runLoop env (loopSnapFn env m) (fuel + 1) iter wParam d =
         (Option.some wParam, d)) ∧
    (∀ (env : RunEnv) (fuel : Nat) (app : App) (root_window : WindowCreateOptions)
       (hinstance : Nat) (m : WindowMap),
       env.moduleHandle = Option.some hinstance →
       (startup env hinstance app.windows root_window).result = Except.ok m →
       env.borrowElection = true → env.borrowMutShow = true →
       env.borrowLoopSnap 0 = false →
       (run env (fuel + 1) app root_window).outcome =
         RunOutcome.ok (usizeToIsize 0)) := by
  refine ⟨?_, ?_, ?_, ?_, runLoop_borrow_fail, ?_⟩
  · intro env hinstance idx o m h hc hb
    exact startupStep_some_fail env hinstance idx o m h hc hb
  · intro env fuel app root_window hinstance e hmod hsu
    simp only [run, hmod, hsu]
  · intro env fuel app root_window hinstance m hmod hsu hbe
    simp only [run, hmod, hsu, hbe, Bool.false_eq_true, if_false]
  · intro env fuel app root_window hinstance m hmod hsu hbe hbs
    simp only [run, hmod, hsu, hbe, hbs, if_true, Bool.false_eq_true, if_false]
  · intro env fuel app root_window hinstance m hmod hsu hbe hbs hbl
    simp only [run, hmod, hsu, hbe, hbs, if_true,
      runLoop_borrow_fail env m fuel 0 0 0 hbl]

/-- Environment whose single creation succeeds but whose insertion borrow
conflicts. -/
def envBorrowInsertFail : RunEnv :=
  { envBase with
    createHwnd := fun _ => Option.some 10
    borrowMutInsert := fun _ => false }

/-- Environment whose context-election borrow conflicts. -/
def envElectionFail : RunEnv := { envBase with borrowElection := false }

/-- Environment whose show borrow conflicts. -/
def envShowFail : RunEnv := { envBase with borrowMutShow := false }

/-- Environment whose dispatch-loop snapshot borrow conflicts. -/
def envLoopBorrowFail : RunEnv :=
  { envBase with borrowLoopSnap := fun _ => false }

/-- Witness for C4: each borrow-conflict site exercised concretely. -/
theorem C4_borrow_conflict_witness :
    startupStep envBorrowInsertFail 1 0 optsDefault [] =
      Except.error (WindowsStartupError.BorrowMut BorrowMutError.mk) ∧
    (run envBorrowInsertFail 1 appEmpty optsDefault).outcome =
      RunOutcome.err (WindowsStartupError.BorrowMut BorrowMutError.mk) ∧
    (run envElectionFail 1 appEmpty optsDefault).outcome =
      RunOutcome.err (WindowsStartupError.Borrow BorrowError.mk) ∧
    (run envShowFail 1 appEmpty optsDefault).outcome =
      RunOutcome.err (WindowsStartupError.BorrowMut BorrowMutError.mk) ∧
    (run envLoopBorrowFail 1 appEmpty optsDefault).outcome =
      RunOutcome.ok (usizeToIsize 0) :=
  ⟨C4_borrow_conflict.1 envBorrowInsertFail 1 0 optsDefault [] 10 rfl rfl,
   C4_borrow_conflict.2.1 envBorrowInsertFail 1 appEmpty optsDefault 1
     (WindowsStartupError.BorrowMut BorrowMutError.mk) rfl rfl,
   C4_borrow_conflict.2.2.1 envElectionFail 1 appEmpty optsDefault 1 [] rfl rfl rfl,
   C4_borrow_conflict.2.2.2.1 envShowFail 1 appEmpty optsDefault 1 [] rfl rfl rfl rfl,
   C4_borrow_conflict.2.2.2.2.2 envLoopBorrowFail 0 appEmpty optsDefault 1 []
     rfl rfl rfl rfl rfl⟩

end Azul
